import Mathlib

/-!
Verification of the ggwave-rs session/streaming layer.

The native ggwave codec engine is an external black box; it is modelled by an
abstract oracle (`NativeEnv`) giving the return code and output bytes of each
native entry point.  Every safe-wrapper function of the crate is embedded as a
pure Lean function over that oracle; each embedded function additionally
returns the list of native calls it performs (`NativeCall` trace), so that
claims of the form "without invoking the native engine" are statable.
Byte sequences (`&str` payloads, waveforms, buffers) are `List Nat`.
-/

namespace GgwaveRs

/-- Maximum length for variable-length encoding in bytes (ffi::constants). -/
def constants.MAX_LENGTH_VARIABLE : Nat := 140

/-- Maximum length for fixed-length encoding in bytes (ffi::constants). -/
def constants.MAX_LENGTH_FIXED : Nat := 64

/-- Configuration record for a ggwave instance.  Only the integer fields that
the embedded wrapper code consults are represented; the floating-point sample
rates, sample formats and marker threshold are never read by any embedded
operation. -/
structure Parameters where
  payloadLength : Int
  operatingMode : Int
deriving DecidableEq, Repr

/-- Error type of the crate (the `Error` enum).  `WavWriteFailed`,
`InvalidSampleFormat` and `IoError` belong to the WAV/IO paths that no claim
touches; the `Utf8Error` payload (a byte position) is dropped. -/
inductive Error where
  | EncodeFailed (code : Int)
  | DecodeFailed (code : Int)
  | Utf8Error
  | InvalidParameter (msg : String)
  | InitializationFailed
  | BufferTooSmall (required provided : Nat)
  | TextTooLong (length max : Nat)
deriving DecidableEq, Repr

/-- Continuation byte of a UTF-8 sequence: 0x80 to 0xBF. -/
def utf8Cont (b : Nat) : Bool := decide (128 ≤ b ∧ b ≤ 191)

/-- States of the UTF-8 validation automaton (the byte-level acceptance rules
of Rust's str::from_utf8: continuation counts, overlong and surrogate
restrictions). -/
inductive Utf8State where
  | start
  | s1
  | s2
  | s3
  | sE0
  | sED
  | sF0
  | sF4
deriving DecidableEq, Repr

/-- One step of the UTF-8 automaton; `none` means the byte is rejected. -/
def utf8Step : Utf8State → Nat → Option Utf8State
  | Utf8State.start, b =>
    if b ≤ 0x7F then some Utf8State.start
    else if 0xC2 ≤ b ∧ b ≤ 0xDF then some Utf8State.s1
    else if b = 0xE0 then some Utf8State.sE0
    else if (0xE1 ≤ b ∧ b ≤ 0xEC) ∨ b = 0xEE ∨ b = 0xEF then some Utf8State.s2
    else if b = 0xED then some Utf8State.sED
    else if b = 0xF0 then some Utf8State.sF0
    else if 0xF1 ≤ b ∧ b ≤ 0xF3 then some Utf8State.s3
    else if b = 0xF4 then some Utf8State.sF4
    else none
  | Utf8State.s1, b => if utf8Cont b then some Utf8State.start else none
  | Utf8State.s2, b => if utf8Cont b then some Utf8State.s1 else none
  | Utf8State.s3, b => if utf8Cont b then some Utf8State.s2 else none
  | Utf8State.sE0, b => if 0xA0 ≤ b ∧ b ≤ 0xBF then some Utf8State.s1 else none
  | Utf8State.sED, b => if 0x80 ≤ b ∧ b ≤ 0x9F then some Utf8State.s1 else none
  | Utf8State.sF0, b => if 0x90 ≤ b ∧ b ≤ 0xBF then some Utf8State.s2 else none
  | Utf8State.sF4, b => if 0x80 ≤ b ∧ b ≤ 0x8F then some Utf8State.s2 else none

/-- Run the UTF-8 automaton from a state over a byte list. -/
def validUtf8From : Utf8State → List Nat → Bool
  | st, [] => decide (st = Utf8State.start)
  | st, b :: rest =>
    match utf8Step st b with
    | some st2 => validUtf8From st2 rest
    | none => false

/-- Rust's `std::str::from_utf8` succeeds exactly on valid UTF-8. -/
def validUtf8 (l : List Nat) : Bool := validUtf8From Utf8State.start l

/-- One call across the native boundary, as recorded in an operation's trace. -/
inductive NativeCall where
  | getDefaultParameters
  | init (params : Parameters)
  | encodeQuery (inst : Int) (text : List Nat) (protocol_id volume : Int)
  | encodeFill (inst : Int) (text : List Nat) (protocol_id volume : Int)
  | ndecode (inst : Int) (waveform : List Nat) (capacity : Nat)
  | decodeStream (inst : Int) (chunk : List Nat)
  | free (inst : Int)
deriving DecidableEq, Repr

/-- Behaviour of the black-box native engine: for each entry point, the return
code and (for calls that fill a caller buffer) the bytes written.  The engine
is deterministic per (instance, arguments); the hidden demodulation state of
the streaming decoder is folded into the oracle. -/
structure NativeEnv where
  defaultParams : Parameters
  initRet : Parameters → Int
  encodeQueryRet : Int → List Nat → Int → Int → Int
  encodeFillRet : Int → List Nat → Int → Int → Int
  encodeFillBytes : Int → List Nat → Int → Int → List Nat
  ndecodeRet : Int → List Nat → Nat → Int
  ndecodeBytes : Int → List Nat → Nat → List Nat
  decodeStreamRet : Int → List Nat → Int
  decodeStreamBytes : Int → List Nat → List Nat

/-- The Session: owns one native engine handle (field `instance` in the
source; `instance` is a Lean keyword, hence `inst`). -/
structure GGWave where
  inst : Int
deriving DecidableEq, Repr

/-- Embeds `GGWave::is_fixed_length`: reads `ggwave_getDefaultParameters()`
(the process-wide defaults), not the Session's own configuration. -/
def GGWave.is_fixed_length (env : NativeEnv) (_self : GGWave) : Bool :=
  env.defaultParams.payloadLength > 0

/-- The framing-mode maximum computed by `calculate_encode_buffer_size`
(the local `max_length`): the default parameters' payload length when
`is_fixed_length`, else `MAX_LENGTH_VARIABLE`. -/
def GGWave.encodeMaxLength (env : NativeEnv) (self : GGWave) : Nat :=
  if GGWave.is_fixed_length env self then env.defaultParams.payloadLength.toNat
  else constants.MAX_LENGTH_VARIABLE

/-- Embeds `GGWave::calculate_encode_buffer_size`: length check against the
framing-mode maximum, then the query-only `ggwave_encode` call; a non-positive
return code is `EncodeFailed`. -/
def GGWave.calculate_encode_buffer_size (env : NativeEnv) (self : GGWave)
    (text : List Nat) (protocol_id volume : Int) :
    Except Error Nat × List NativeCall :=
  let defTrace : List NativeCall :=
    if GGWave.is_fixed_length env self then
      [NativeCall.getDefaultParameters, NativeCall.getDefaultParameters]
    else [NativeCall.getDefaultParameters]
  let max_length := GGWave.encodeMaxLength env self
  if text.length > max_length then
    (Except.error (Error.TextTooLong text.length max_length), defTrace)
  else
    let waveform_size := env.encodeQueryRet self.inst text protocol_id volume
    if waveform_size ≤ 0 then
      (Except.error (Error.EncodeFailed waveform_size),
        defTrace ++ [NativeCall.encodeQuery self.inst text protocol_id volume])
    else
      (Except.ok waveform_size.toNat,
        defTrace ++ [NativeCall.encodeQuery self.inst text protocol_id volume])

/-- Embeds `GGWave::encode_into_buffer`: recomputes the required size, checks
the provided buffer locally, then performs the fill `ggwave_encode` call.
The returned buffer is the caller's buffer after the native write (the native
engine writes its output bytes at the start of the buffer). -/
def GGWave.encode_into_buffer (env : NativeEnv) (self : GGWave)
    (text : List Nat) (protocol_id volume : Int) (buffer : List Nat) :
    (Except Error Nat × List Nat) × List NativeCall :=
  match GGWave.calculate_encode_buffer_size env self text protocol_id volume with
  | (Except.error e, tr) => ((Except.error e, buffer), tr)
  | (Except.ok required_size, tr) =>
    if buffer.length < required_size then
      ((Except.error (Error.BufferTooSmall required_size buffer.length), buffer), tr)
    else
      let written := env.encodeFillBytes self.inst text protocol_id volume
      let buffer2 := written ++ buffer.drop written.length
      let result := env.encodeFillRet self.inst text protocol_id volume
      let tr2 := tr ++ [NativeCall.encodeFill self.inst text protocol_id volume]
      if result < 0 then
        ((Except.error (Error.EncodeFailed result), buffer2), tr2)
      else
        ((Except.ok result.toNat, buffer2), tr2)

/-- Embeds `GGWave::encode`: size query, fresh zeroed buffer of that size,
fill via `encode_into_buffer`, then truncate to the bytes-written value when
it is below the buffer length. -/
def GGWave.encode (env : NativeEnv) (self : GGWave)
    (text : List Nat) (protocol_id volume : Int) :
    Except Error (List Nat) × List NativeCall :=
  match GGWave.calculate_encode_buffer_size env self text protocol_id volume with
  | (Except.error e, tr) => (Except.error e, tr)
  | (Except.ok size, tr) =>
    let buffer := List.replicate size 0
    match GGWave.encode_into_buffer env self text protocol_id volume buffer with
    | ((Except.error e, _), tr2) => (Except.error e, tr ++ tr2)
    | ((Except.ok written, buffer2), tr2) =>
      let buffer3 := if written < buffer2.length then buffer2.take written else buffer2
      (Except.ok buffer3, tr ++ tr2)

/-- Embeds `GGWave::decode` (the bounded, stateless `ggwave_ndecode` path):
a negative return code is `DecodeFailed`, otherwise the first `result` bytes
of the buffer are checked as UTF-8. -/
def GGWave.decode (env : NativeEnv) (self : GGWave)
    (waveform buffer : List Nat) :
    (Except Error (List Nat) × List Nat) × List NativeCall :=
  let written := env.ndecodeBytes self.inst waveform buffer.length
  let buffer2 := written ++ buffer.drop written.length
  let result := env.ndecodeRet self.inst waveform buffer.length
  let tr := [NativeCall.ndecode self.inst waveform buffer.length]
  if result < 0 then
    ((Except.error (Error.DecodeFailed result), buffer2), tr)
  else
    let payload := buffer2.take result.toNat
    if validUtf8 payload then ((Except.ok payload, buffer2), tr)
    else ((Except.error Error.Utf8Error, buffer2), tr)

/-- Embeds `GGWave::process_audio_chunk` (the stateful streaming
`ggwave_decode` path), with its nested conditional kept exactly as in the
source: the outer and the inner test are both `result < 0`, so the
`Ok(None)` arm sits in the inner else of an already-negative branch. -/
def GGWave.process_audio_chunk (env : NativeEnv) (self : GGWave)
    (audio_chunk decode_buffer : List Nat) :
    (Except Error (Option (List Nat)) × List Nat) × List NativeCall :=
  let written := env.decodeStreamBytes self.inst audio_chunk
  let buffer2 := written ++ decode_buffer.drop written.length
  let result := env.decodeStreamRet self.inst audio_chunk
  let tr := [NativeCall.decodeStream self.inst audio_chunk]
  if result < 0 then
    if result < 0 then
      ((Except.error (Error.DecodeFailed result), buffer2), tr)
    else
      ((Except.ok none, buffer2), tr)
  else
    let payload := buffer2.take result.toNat
    if validUtf8 payload then ((Except.ok (some payload), buffer2), tr)
    else ((Except.error Error.Utf8Error, buffer2), tr)

/-- Embeds `GGWave::new_with_fixed_payload`: local range validation of the
fixed payload length, then default parameters, mutation, and `ggwave_init`. -/
def GGWave.new_with_fixed_payload (env : NativeEnv)
    (payload_length operating_mode : Int) :
    Except Error GGWave × List NativeCall :=
  if payload_length ≤ 0 ∨ payload_length > (constants.MAX_LENGTH_FIXED : Int) then
    (Except.error (Error.InvalidParameter
      "Fixed payload length must be between 1 and 64"), [])
  else
    let params : Parameters :=
      { payloadLength := payload_length, operatingMode := operating_mode }
    let inst := env.initRet params
    if inst < 0 then
      (Except.error Error.InitializationFailed,
        [NativeCall.getDefaultParameters, NativeCall.init params])
    else
      (Except.ok ⟨inst⟩,
        [NativeCall.getDefaultParameters, NativeCall.init params])

/-- Embeds `GGWave::new_with_params`: the caller's parameter record is passed
directly to `ggwave_init`, with no local validation. -/
def GGWave.new_with_params (env : NativeEnv) (params : Parameters) :
    Except Error GGWave × List NativeCall :=
  let inst := env.initRet params
  if inst < 0 then
    (Except.error Error.InitializationFailed, [NativeCall.init params])
  else
    (Except.ok ⟨inst⟩, [NativeCall.init params])

/-- Embeds `impl Drop for GGWave`: the destructor performs exactly the single
`ggwave_free` call on the owned handle. -/
def GGWave.drop (self : GGWave) : List NativeCall :=
  [NativeCall.free self.inst]

/-- One operation invoked on a live Session during its lifetime. -/
inductive SessionOp where
  | calcSize (text : List Nat) (protocol_id volume : Int)
  | encodeInto (text : List Nat) (protocol_id volume : Int) (buffer : List Nat)
  | encodeOp (text : List Nat) (protocol_id volume : Int)
  | decodeOp (waveform buffer : List Nat)
  | processChunk (audio_chunk decode_buffer : List Nat)

/-- Native-call trace of one Session operation. -/
def GGWave.opTrace (env : NativeEnv) (self : GGWave) : SessionOp → List NativeCall
  | SessionOp.calcSize t p v =>
    (GGWave.calculate_encode_buffer_size env self t p v).2
  | SessionOp.encodeInto t p v b =>
    (GGWave.encode_into_buffer env self t p v b).2
  | SessionOp.encodeOp t p v => (GGWave.encode env self t p v).2
  | SessionOp.decodeOp w b => (GGWave.decode env self w b).2
  | SessionOp.processChunk c b => (GGWave.process_audio_chunk env self c b).2

/-- Full native-call trace of a Session lifetime: construction (via
`new_with_params`), the operations performed while it is live, and the
automatic destructor.  Rust runs the destructor exactly once per constructed
value; a failed construction yields no Session and hence no destructor. -/
def sessionLifetimeTrace (env : NativeEnv) (params : Parameters)
    (ops : List SessionOp) : List NativeCall :=
  match GGWave.new_with_params env params with
  | (Except.error _, tr) => tr
  | (Except.ok s, tr) => tr ++ ops.flatMap (GGWave.opTrace env s) ++ GGWave.drop s

/-- Recognizes the teardown call in a trace. -/
def NativeCall.isFree : NativeCall → Bool
  | NativeCall.free _ => true
  | _ => false

/-- Recognizes the fill-phase encode call in a trace. -/
def NativeCall.isFill : NativeCall → Bool
  | NativeCall.encodeFill _ _ _ _ => true
  | _ => false

/-- Recognizes the query-phase encode call in a trace. -/
def NativeCall.isQuery : NativeCall → Bool
  | NativeCall.encodeQuery _ _ _ _ => true
  | _ => false

/-- Recognizes the native initializer call in a trace. -/
def NativeCall.isInit : NativeCall → Bool
  | NativeCall.init _ => true
  | _ => false

/-- Number of `ggwave_free` calls in a trace. -/
def countFree : List NativeCall → Nat
  | [] => 0
  | c :: tr => (if c.isFree then 1 else 0) + countFree tr

/-- Number of fill-phase `ggwave_encode` calls in a trace. -/
def countFill : List NativeCall → Nat
  | [] => 0
  | c :: tr => (if c.isFill then 1 else 0) + countFill tr

/-- Number of `ggwave_init` calls in a trace. -/
def countInit : List NativeCall → Nat
  | [] => 0
  | c :: tr => (if c.isInit then 1 else 0) + countInit tr

/-- The Concurrency Bridge: `Arc<Mutex<GGWave>>`.  Sharing one `inner` value
models the reference-counted, mutually exclusive Session; the mutex
serializes native calls, so each offloaded operation runs atomically against
the Session and is embedded as the synchronous operation it delegates to. -/
structure AsyncGGWave where
  inner : GGWave
deriving DecidableEq, Repr

/-- Embeds `AsyncGGWave::encode` (successful-offload path): lock the shared
Session and run the synchronous `encode` on the worker. -/
def AsyncGGWave.encode (env : NativeEnv) (self : AsyncGGWave)
    (text : List Nat) (protocol_id volume : Int) :
    Except Error (List Nat) × List NativeCall :=
  GGWave.encode env self.inner text protocol_id volume

/-- Embeds `AsyncGGWave::clone`: a new handle to the same shared Session; no
native call is made. -/
def AsyncGGWave.clone (self : AsyncGGWave) : AsyncGGWave × List NativeCall :=
  (⟨self.inner⟩, [])

/-- Embeds `AsyncGGWave::process_audio_chunk`: lock, allocate a fresh decode
buffer of `max_payload_size` zeros, and run the synchronous stateful chunk
decode. -/
def AsyncGGWave.process_audio_chunk (env : NativeEnv) (self : AsyncGGWave)
    (audio_chunk : List Nat) (max_payload_size : Nat) :
    Except Error (Option (List Nat)) × List NativeCall :=
  let buffer := List.replicate max_payload_size 0
  match GGWave.process_audio_chunk env self.inner audio_chunk buffer with
  | ((r, _), tr) => (r, tr)

/-- Embeds `AsyncGGWave::encode_into_buffer`: size query, local undersize
check, then the heap-allocating `encode` on the worker and a copy of
`min(encoded.len, buffer.len)` bytes into the caller's buffer. -/
def AsyncGGWave.encode_into_buffer (env : NativeEnv) (self : AsyncGGWave)
    (text : List Nat) (protocol_id volume : Int) (buffer : List Nat) :
    (Except Error Nat × List Nat) × List NativeCall :=
  match GGWave.calculate_encode_buffer_size env self.inner text protocol_id volume with
  | (Except.error e, tr) => ((Except.error e, buffer), tr)
  | (Except.ok size, tr) =>
    if buffer.length < size then
      ((Except.error (Error.BufferTooSmall size buffer.length), buffer), tr)
    else
      match GGWave.encode env self.inner text protocol_id volume with
      | (Except.error e, tr2) => ((Except.error e, buffer), tr ++ tr2)
      | (Except.ok encoded, tr2) =>
        let len := min encoded.length buffer.length
        ((Except.ok len, encoded.take len ++ buffer.drop len), tr ++ tr2)

/-- Reason the background stream-processing loop stopped.
`sourceExhausted` is an artifact of the finite read list in the model (the
modelled source ran out of read results without a terminal event). -/
inductive StopReason where
  | readError
  | endOfStream
  | receiverDropped
  | sourceExhausted
deriving DecidableEq, Repr

/-- Embeds the loop of `streams::start_background_processing`.  Inputs: the
successive outcomes of `reader.read` (an `Except` per iteration; `Ok` carries
the chunk read, `Ok []` is end-of-stream) and `accepts`, the number of channel
pushes that still succeed before all receivers are dropped.  Output: the
messages published on the channel, why the loop stopped (the channel is closed
when it does), and how many reads it consumed. -/
def background_loop (env : NativeEnv) (a : AsyncGGWave) (max_payload_size : Nat) :
    Nat → List (Except Unit (List Nat)) → List (List Nat) × StopReason × Nat
  | _, [] => ([], StopReason.sourceExhausted, 0)
  | accepts, r :: rest =>
    match r with
    | Except.error _ => ([], StopReason.readError, 1)
    | Except.ok chunk =>
      if chunk.length = 0 then ([], StopReason.endOfStream, 1)
      else
        match (AsyncGGWave.process_audio_chunk env a chunk max_payload_size).1 with
        | Except.ok (some decoded) =>
          match accepts with
          | 0 => ([], StopReason.receiverDropped, 1)
          | k + 1 =>
            let res := background_loop env a max_payload_size k rest
            (decoded :: res.1, res.2.1, res.2.2 + 1)
        | _ =>
          let res := background_loop env a max_payload_size accepts rest
          (res.1, res.2.1, res.2.2 + 1)

/-- State of the bounded tokio mpsc channel as seen by the receiver: the
queued messages and whether the sender side has been dropped (channel
closed). -/
structure ChannelState where
  queued : List (List Nat)
  closed : Bool
deriving DecidableEq, Repr

/-- Failure cases of tokio's non-blocking `try_recv`. -/
inductive TryRecvError where
  | empty
  | disconnected
deriving DecidableEq, Repr

/-- Semantics of `mpsc::Receiver::try_recv`: a queued message is delivered
even on a closed channel; an empty queue distinguishes a live channel
(`empty`) from a closed one (`disconnected`). -/
def mpsc_try_recv : ChannelState → Except TryRecvError (List Nat)
  | ⟨[], false⟩ => Except.error TryRecvError.empty
  | ⟨[], true⟩ => Except.error TryRecvError.disconnected
  | ⟨m :: _, _⟩ => Except.ok m

/-- Semantics of the blocking `mpsc::Receiver::recv` at a resolved state
(a state where it has returned: a message is queued, or the channel is
closed): `none` exactly on closed-and-empty. -/
def mpsc_recv_resolved (st : ChannelState) : Option (List Nat) :=
  match st.queued with
  | m :: _ => some m
  | [] => none

/-- Embeds `MessageReceiver::recv`: directly tokio's blocking `recv`. -/
def MessageReceiver.recv (st : ChannelState) : Option (List Nat) :=
  mpsc_recv_resolved st

/-- Embeds `MessageReceiver::try_recv`: `self.rx.try_recv().ok()`, mapping
both failure cases to `none`. -/
def MessageReceiver.try_recv (st : ChannelState) : Option (List Nat) :=
  match mpsc_try_recv st with
  | Except.ok m => some m
  | Except.error _ => none

/-- Embeds `MessageReceiver::recv_timeout`:
`tokio::time::timeout(timeout, self.rx.recv()).await.ok().flatten()`.
`completed` says whether the inner `recv` resolved before the timeout; `st`
is the channel state at resolution. -/
def MessageReceiver.recv_timeout (completed : Bool) (st : ChannelState) :
    Option (List Nat) :=
  match (if completed then some (MessageReceiver.recv st) else none) with
  | some v => v
  | none => none

/-- Concrete native oracle used to evaluate the embedded wrapper on concrete
inputs: a deterministic engine whose size query answers 5, whose fill writes
5 bytes, whose streaming decode reports "nothing decoded yet" (code 0), and
whose initializer hands out handle 0. -/
def defaultTestEnv : NativeEnv where
  defaultParams := { payloadLength := -1, operatingMode := 3 }
  initRet := fun _ => 0
  encodeQueryRet := fun _ _ _ _ => 5
  encodeFillRet := fun _ _ _ _ => 5
  encodeFillBytes := fun _ _ _ _ => List.replicate 5 7
  ndecodeRet := fun _ _ _ => -1
  ndecodeBytes := fun _ _ _ => []
  decodeStreamRet := fun _ _ => 0
  decodeStreamBytes := fun _ _ => []

/-- Oracle for C4: the process-wide default parameters use variable-length
framing (payload length -1, as the stock native defaults report), and the
size query answers 6144. -/
def envC4 : NativeEnv :=
  { defaultTestEnv with encodeQueryRet := fun _ _ _ _ => 6144 }

/-- The parameter record of the spec's rejection scenario: fixed payload
length 200, above the fixed-length maximum 64. -/
def params200 : Parameters := { payloadLength := 200, operatingMode := 3 }

/-- Oracle for C5: the native initializer rejects every configuration. -/
def envC5 : NativeEnv := { defaultTestEnv with initRet := fun _ => -1 }

/-- Oracle for the C6 counterexample: the size query answers 5 but the fill
call answers the non-positive code 0. -/
def envC6 : NativeEnv :=
  { defaultTestEnv with
    encodeFillRet := fun _ _ _ _ => 0
    encodeFillBytes := fun _ _ _ _ => [] }

/-- Oracle for the C8 witness: the streaming decode completes a 2-byte
payload on every chunk. -/
def envC8 : NativeEnv :=
  { defaultTestEnv with
    decodeStreamRet := fun _ _ => 2
    decodeStreamBytes := fun _ _ => [104, 105] }

/-- C1: the stateful chunk decode can never produce the successful empty
result.  When the native streaming decode reports "no payload yet" (return
code 0, as on every chunk that completes no frame), `process_audio_chunk`
returns `Ok(Some ""))` — the empty payload — because the `Ok(None)` arm is
nested inside the already-negative branch and is unreachable; the first
conjunct evaluates the code at that failing input, the second proves the
`Ok(None)` arm dead for every oracle, Session, chunk and buffer. -/
theorem process_audio_chunk_ok_none_unreachable :
    (GGWave.process_audio_chunk defaultTestEnv ⟨0⟩ (List.replicate 4 0)
        (List.replicate 8 0)).1.1 = Except.ok (some [])
    ∧ ∀ (env : NativeEnv) (s : GGWave) (chunk buf : List Nat),
        (GGWave.process_audio_chunk env s chunk buf).1.1 ≠ Except.ok none := by
  constructor
  · rfl
  · intro env s chunk buf
    unfold GGWave.process_audio_chunk
    dsimp only
    split_ifs <;> simp

/-- C7: the Concurrency Bridge's encode is exactly the synchronous Session
encode on the shared Session with the caller's own arguments, and cloning a
bridge handle yields a handle to the same Session with no native call (in
particular no second `ggwave_init`); encoding through a clone coincides with
encoding through the original handle. -/
theorem bridge_encode_refines_session_encode :
    (∀ (env : NativeEnv) (a : AsyncGGWave) (text : List Nat) (pid vol : Int),
      AsyncGGWave.encode env a text pid vol
        = GGWave.encode env a.inner text pid vol)
    ∧ (∀ a : AsyncGGWave, (AsyncGGWave.clone a).1.inner = a.inner)
    ∧ (∀ a : AsyncGGWave, (AsyncGGWave.clone a).2 = [])
    ∧ (∀ (env : NativeEnv) (a : AsyncGGWave) (text : List Nat) (pid vol : Int),
      AsyncGGWave.encode env (AsyncGGWave.clone a).1 text pid vol
        = AsyncGGWave.encode env a text pid vol) :=
  ⟨fun _ _ _ _ _ => rfl, fun _ => rfl, fun _ => rfl, fun _ _ _ _ _ => rfl⟩

/-- C10: at the consumer-facing receiver, the non-blocking poll and the
bounded-wait mode both answer `none` on an empty live channel, on timeout,
and on a closed channel alike — the consumer cannot tell an empty-but-live
stream from a terminated one in those two modes — while the blocking `recv`
answers `none` exactly when the channel is closed and drained. -/
theorem receiver_nonblocking_conflates_closed :
    (MessageReceiver.try_recv ⟨[], false⟩ = none
      ∧ MessageReceiver.try_recv ⟨[], true⟩ = none)
    ∧ (∀ st : ChannelState, MessageReceiver.recv_timeout false st = none)
    ∧ MessageReceiver.recv_timeout true ⟨[], true⟩ = none
    ∧ (∀ st : ChannelState, st.queued ≠ [] ∨ st.closed = true →
        (MessageReceiver.recv st = none ↔ st.queued = [] ∧ st.closed = true))
    ∧ (∀ (m : List Nat) (q : List (List Nat)) (c : Bool),
        MessageReceiver.recv ⟨m :: q, c⟩ = some m) := by
  refine ⟨⟨rfl, rfl⟩, fun st => rfl, rfl, ?_, fun m q c => rfl⟩
  intro st h
  rcases st with ⟨_ | ⟨m, q⟩, c⟩
  · rcases h with h | h
    · simp at h
    · simp only at h
      subst h
      simp [MessageReceiver.recv, mpsc_recv_resolved]
  · simp [MessageReceiver.recv, mpsc_recv_resolved]

/-- Witness for C10 at the concrete closed-and-drained channel state. -/
theorem receiver_nonblocking_conflates_closed_witness :
    ((⟨[], true⟩ : ChannelState).queued ≠ []
        ∨ (⟨[], true⟩ : ChannelState).closed = true)
    ∧ (MessageReceiver.recv ⟨[], true⟩ = none
        ↔ (⟨[], true⟩ : ChannelState).queued = []
          ∧ (⟨[], true⟩ : ChannelState).closed = true) :=
  ⟨Or.inr rfl,
   receiver_nonblocking_conflates_closed.2.2.2.1 ⟨[], true⟩ (Or.inr rfl)⟩

/-- Reduction of `calculate_encode_buffer_size` when the text is within the
framing-mode maximum and the native size query answers a positive code. -/
lemma calculate_ok_eq (env : NativeEnv) (s : GGWave) (text : List Nat)
    (pid vol : Int)
    (htext : ¬ text.length > GGWave.encodeMaxLength env s)
    (hq : 0 < env.encodeQueryRet s.inst text pid vol) :
    GGWave.calculate_encode_buffer_size env s text pid vol =
      (Except.ok (env.encodeQueryRet s.inst text pid vol).toNat,
       (if GGWave.is_fixed_length env s then
          [NativeCall.getDefaultParameters, NativeCall.getDefaultParameters]
        else [NativeCall.getDefaultParameters])
         ++ [NativeCall.encodeQuery s.inst text pid vol]) := by
  unfold GGWave.calculate_encode_buffer_size
  dsimp only
  rw [if_neg htext,
    if_neg (by omega : ¬ env.encodeQueryRet s.inst text pid vol ≤ 0)]

/-- Reduction of `encode_into_buffer` when the size query succeeded and the
buffer is large enough: the fill call happens and decides the outcome. -/
lemma encode_into_buffer_fill_eq (env : NativeEnv) (s : GGWave)
    (text : List Nat) (pid vol : Int) (buffer : List Nat) (size : Nat)
    (tr0 : List NativeCall)
    (hcalc : GGWave.calculate_encode_buffer_size env s text pid vol
      = (Except.ok size, tr0))
    (hge : ¬ buffer.length < size) :
    GGWave.encode_into_buffer env s text pid vol buffer =
      ((if env.encodeFillRet s.inst text pid vol < 0 then
          Except.error (Error.EncodeFailed (env.encodeFillRet s.inst text pid vol))
        else Except.ok (env.encodeFillRet s.inst text pid vol).toNat,
        env.encodeFillBytes s.inst text pid vol
          ++ buffer.drop (env.encodeFillBytes s.inst text pid vol).length),
       tr0 ++ [NativeCall.encodeFill s.inst text pid vol]) := by
  unfold GGWave.encode_into_buffer
  rw [hcalc]
  dsimp only
  rw [if_neg hge]
  split_ifs <;> rfl

/-- Reduction of `encode_into_buffer` when the size query succeeded and the
buffer is too small: local rejection, buffer untouched, trace unchanged. -/
lemma encode_into_buffer_undersized_eq (env : NativeEnv) (s : GGWave)
    (text : List Nat) (pid vol : Int) (buffer : List Nat) (size : Nat)
    (tr0 : List NativeCall)
    (hcalc : GGWave.calculate_encode_buffer_size env s text pid vol
      = (Except.ok size, tr0))
    (hlt : buffer.length < size) :
    GGWave.encode_into_buffer env s text pid vol buffer =
      ((Except.error (Error.BufferTooSmall size buffer.length), buffer), tr0) := by
  unfold GGWave.encode_into_buffer
  rw [hcalc]
  dsimp only
  rw [if_pos hlt]

/-- Reduction of the async `encode_into_buffer` in the undersized case. -/
lemma async_encode_into_buffer_undersized_eq (env : NativeEnv)
    (a : AsyncGGWave) (text : List Nat) (pid vol : Int) (buffer : List Nat)
    (size : Nat) (tr0 : List NativeCall)
    (hcalc : GGWave.calculate_encode_buffer_size env a.inner text pid vol
      = (Except.ok size, tr0))
    (hlt : buffer.length < size) :
    AsyncGGWave.encode_into_buffer env a text pid vol buffer =
      ((Except.error (Error.BufferTooSmall size buffer.length), buffer), tr0) := by
  unfold AsyncGGWave.encode_into_buffer
  rw [hcalc]
  dsimp only
  rw [if_pos hlt]

/-- Count of teardown calls distributes over trace concatenation. -/
lemma countFree_append (a b : List NativeCall) :
    countFree (a ++ b) = countFree a + countFree b := by
  induction a with
  | nil => simp [countFree]
  | cons c a ih => simp [countFree, ih]; omega

/-- Count of fill calls distributes over trace concatenation. -/
lemma countFill_append (a b : List NativeCall) :
    countFill (a ++ b) = countFill a + countFill b := by
  induction a with
  | nil => simp [countFill]
  | cons c a ih => simp [countFill, ih]; omega

/-- The size-query trace contains no fill-phase encode call. -/
lemma countFill_calculate (env : NativeEnv) (s : GGWave) (text : List Nat)
    (pid vol : Int) :
    countFill (GGWave.calculate_encode_buffer_size env s text pid vol).2 = 0 := by
  unfold GGWave.calculate_encode_buffer_size
  dsimp only
  split_ifs <;>
    simp [countFill, countFill_append, NativeCall.isFill]

/-- C3: with a buffer strictly smaller than the queried size, both the
synchronous and the bridge `encode_into_buffer` return
`BufferTooSmall{required = queried size, provided = buffer.len}`, leave the
buffer unmodified, and never reach the native fill call. -/
theorem undersized_buffer_rejected_locally (env : NativeEnv) (s : GGWave)
    (text : List Nat) (pid vol : Int) (buffer : List Nat) (size : Nat)
    (hq : (GGWave.calculate_encode_buffer_size env s text pid vol).1
      = Except.ok size)
    (hlt : buffer.length < size) :
    ((GGWave.encode_into_buffer env s text pid vol buffer).1.1
        = Except.error (Error.BufferTooSmall size buffer.length))
    ∧ (GGWave.encode_into_buffer env s text pid vol buffer).1.2 = buffer
    ∧ countFill (GGWave.encode_into_buffer env s text pid vol buffer).2 = 0
    ∧ ((AsyncGGWave.encode_into_buffer env ⟨s⟩ text pid vol buffer).1.1
        = Except.error (Error.BufferTooSmall size buffer.length))
    ∧ (AsyncGGWave.encode_into_buffer env ⟨s⟩ text pid vol buffer).1.2 = buffer
    ∧ countFill (AsyncGGWave.encode_into_buffer env ⟨s⟩ text pid vol buffer).2
        = 0 := by
  rcases hpair : GGWave.calculate_encode_buffer_size env s text pid vol
    with ⟨res, tr0⟩
  rw [hpair] at hq
  dsimp only at hq
  subst hq
  have htr : countFill tr0 = 0 := by
    have h := countFill_calculate env s text pid vol
    rw [hpair] at h
    exact h
  have h1 := encode_into_buffer_undersized_eq env s text pid vol buffer size
    tr0 hpair hlt
  have h2 := async_encode_into_buffer_undersized_eq env ⟨s⟩ text pid vol
    buffer size tr0 hpair hlt
  rw [h1, h2]
  exact ⟨rfl, rfl, htr, rfl, rfl, htr⟩

/-- Witness for C3: with the test oracle (queried size 5) and a 3-byte
buffer, `encode_into_buffer` reports the undersized buffer. -/
theorem undersized_buffer_rejected_locally_witness :
    ((GGWave.calculate_encode_buffer_size defaultTestEnv ⟨0⟩ [97] 1 50).1
        = Except.ok 5)
    ∧ (List.replicate 3 0).length < 5
    ∧ (GGWave.encode_into_buffer defaultTestEnv ⟨0⟩ [97] 1 50
        (List.replicate 3 0)).1.1
        = Except.error (Error.BufferTooSmall 5 3) :=
  ⟨rfl, by decide,
   (undersized_buffer_rejected_locally defaultTestEnv ⟨0⟩ [97] 1 50
      (List.replicate 3 0) 5 rfl (by decide)).1⟩

/-- C2: with text within the framing-mode maximum, a positive size-query
answer, and the native fill contract (bytes written and return code bounded
by the negotiated size — the spec's own assumption on the engine), a buffer
sized exactly to `calculate_encode_buffer_size` is never rejected as too
small, the native write stays within the buffer (its length is preserved),
the bytes-written value is at most the buffer length, and `encode` returns a
vector whose length equals that bytes-written value. -/
theorem exact_buffer_negotiation (env : NativeEnv) (s : GGWave)
    (text : List Nat) (pid vol : Int) (buffer : List Nat)
    (htext : ¬ text.length > GGWave.encodeMaxLength env s)
    (hq : 0 < env.encodeQueryRet s.inst text pid vol)
    (hbuf : buffer.length = (env.encodeQueryRet s.inst text pid vol).toNat)
    (hbytes : (env.encodeFillBytes s.inst text pid vol).length
        ≤ (env.encodeQueryRet s.inst text pid vol).toNat)
    (hret : env.encodeFillRet s.inst text pid vol
        ≤ env.encodeQueryRet s.inst text pid vol) :
    ((GGWave.calculate_encode_buffer_size env s text pid vol).1
        = Except.ok buffer.length)
    ∧ (∀ r p, (GGWave.encode_into_buffer env s text pid vol buffer).1.1
        ≠ Except.error (Error.BufferTooSmall r p))
    ∧ (GGWave.encode_into_buffer env s text pid vol buffer).1.2.length
        = buffer.length
    ∧ (∀ w, (GGWave.encode_into_buffer env s text pid vol buffer).1.1
          = Except.ok w →
        w ≤ buffer.length
        ∧ ∃ v, (GGWave.encode env s text pid vol).1 = Except.ok v
            ∧ v.length = w) := by
  have hcalc := calculate_ok_eq env s text pid vol htext hq
  have heib := encode_into_buffer_fill_eq env s text pid vol buffer
    (env.encodeQueryRet s.inst text pid vol).toNat _ hcalc (by omega)
  refine ⟨?_, ?_, ?_, ?_⟩
  · rw [hcalc, hbuf]
  · intro r p
    rw [heib]
    dsimp only
    split_ifs <;> simp
  · rw [heib]
    dsimp only
    simp only [List.length_append, List.length_drop]
    omega
  · intro w hw
    rw [heib] at hw
    dsimp only at hw
    split_ifs at hw with hneg
    simp only [Except.ok.injEq] at hw
    subst hw
    constructor
    · omega
    · unfold GGWave.encode
      rw [hcalc]
      dsimp only
      have heib2 := encode_into_buffer_fill_eq env s text pid vol
        (List.replicate (env.encodeQueryRet s.inst text pid vol).toNat 0)
        (env.encodeQueryRet s.inst text pid vol).toNat _ hcalc
        (by simp)
      rw [heib2]
      rw [if_neg hneg]
      refine ⟨_, rfl, ?_⟩
      have hlen2 : (env.encodeFillBytes s.inst text pid vol
          ++ (List.replicate (env.encodeQueryRet s.inst text pid vol).toNat
                (0 : Nat)).drop
              (env.encodeFillBytes s.inst text pid vol).length).length
          = (env.encodeQueryRet s.inst text pid vol).toNat := by
        simp only [List.length_append, List.length_drop, List.length_replicate]
        omega
      split_ifs with hlt
      · simp only [List.length_take]
        omega
      · rw [hlen2] at hlt ⊢
        omega

/-- Witness for C2 at the test oracle: queried size 5, exact 5-byte buffer,
fill writes 5 bytes and answers 5. -/
theorem exact_buffer_negotiation_witness :
    (¬ ([97] : List Nat).length > GGWave.encodeMaxLength defaultTestEnv ⟨0⟩)
    ∧ 0 < defaultTestEnv.encodeQueryRet 0 [97] 1 50
    ∧ ((GGWave.calculate_encode_buffer_size defaultTestEnv ⟨0⟩ [97] 1 50).1
        = Except.ok 5)
    ∧ (GGWave.encode_into_buffer defaultTestEnv ⟨0⟩ [97] 1 50
        (List.replicate 5 0)).1.2.length = 5 := by
  have h := exact_buffer_negotiation defaultTestEnv ⟨0⟩ [97] 1 50
    (List.replicate 5 0) (by decide) (by decide) (by decide) (by decide)
    (by decide)
  exact ⟨by decide, by decide, h.1, h.2.2.1⟩

/-- C4: a Session configured for fixed-length framing does not get the
fixed-length text maximum.  `is_fixed_length` reads
`ggwave_getDefaultParameters()` — the Session stores only its handle — so a
Session built with fixed payload length 32 still uses the variable-length
maximum 140: a 40-byte text is accepted, no `TextTooLong` is produced, and
the native query engine is invoked. -/
theorem fixed_payload_text_limit_ignores_session :
    (GGWave.new_with_fixed_payload envC4 32 3).1 = Except.ok ⟨0⟩
    ∧ GGWave.encodeMaxLength envC4 ⟨0⟩ = 140
    ∧ ((GGWave.calculate_encode_buffer_size envC4 ⟨0⟩ (List.replicate 40 65)
        1 50).1 = Except.ok 6144)
    ∧ (∀ len maxv,
        (GGWave.calculate_encode_buffer_size envC4 ⟨0⟩ (List.replicate 40 65)
          1 50).1 ≠ Except.error (Error.TextTooLong len maxv))
    ∧ NativeCall.encodeQuery 0 (List.replicate 40 65) 1 50
        ∈ (GGWave.calculate_encode_buffer_size envC4 ⟨0⟩ (List.replicate 40 65)
            1 50).2 := by
  refine ⟨rfl, rfl, rfl, ?_, by decide⟩
  intro len maxv h
  rw [show (GGWave.calculate_encode_buffer_size envC4 ⟨0⟩
      (List.replicate 40 65) 1 50).1 = Except.ok 6144 from rfl] at h
  exact Except.noConfusion h

/-- C5 counterexample: constructing a Session from a parameter record with
out-of-range fixed payload length 200 through `new_with_params` is not
rejected by local validation — no `InvalidParameter` is produced and the
native initializer is called (the trace contains the `ggwave_init` call),
its rejection surfacing as `InitializationFailed`. -/
theorem new_with_params_skips_local_validation :
    (GGWave.new_with_params envC5 params200).1
        = Except.error Error.InitializationFailed
    ∧ (∀ msg, (GGWave.new_with_params envC5 params200).1
        ≠ Except.error (Error.InvalidParameter msg))
    ∧ NativeCall.init params200 ∈ (GGWave.new_with_params envC5 params200).2 := by
  refine ⟨rfl, ?_, by decide⟩
  intro msg h
  rw [show (GGWave.new_with_params envC5 params200).1
      = Except.error Error.InitializationFailed from rfl] at h
  simp at h

/-- C5 amended: the fixed-payload constructor `new_with_fixed_payload` does
reject an out-of-range length locally with `InvalidParameter` and an empty
native trace (no allocator slot consumed), while `new_with_params` always
performs exactly the native init call with no local validation. -/
theorem fixed_payload_constructor_validates_locally (env : NativeEnv)
    (payload_length operating_mode : Int) (params : Parameters)
    (h : payload_length ≤ 0 ∨ payload_length > 64) :
    ((GGWave.new_with_fixed_payload env payload_length operating_mode).1
        = Except.error (Error.InvalidParameter
            "Fixed payload length must be between 1 and 64"))
    ∧ (GGWave.new_with_fixed_payload env payload_length operating_mode).2 = []
    ∧ (GGWave.new_with_params env params).2 = [NativeCall.init params] := by
  have hcond : payload_length ≤ 0
      ∨ payload_length > (constants.MAX_LENGTH_FIXED : Int) := by
    rcases h with h | h
    · exact Or.inl h
    · exact Or.inr (by norm_num [constants.MAX_LENGTH_FIXED]; omega)
  refine ⟨?_, ?_, ?_⟩
  · unfold GGWave.new_with_fixed_payload
    rw [if_pos hcond]
  · unfold GGWave.new_with_fixed_payload
    rw [if_pos hcond]
  · unfold GGWave.new_with_params
    dsimp only
    split_ifs <;> rfl

/-- Witness for the amended C5 at length 200. -/
theorem fixed_payload_constructor_validates_locally_witness :
    ((200 : Int) ≤ 0 ∨ (200 : Int) > 64)
    ∧ (GGWave.new_with_fixed_payload envC5 200 3).1
        = Except.error (Error.InvalidParameter
            "Fixed payload length must be between 1 and 64")
    ∧ (GGWave.new_with_fixed_payload envC5 200 3).2 = [] := by
  have h := fixed_payload_constructor_validates_locally envC5 200 3 params200
    (by omega)
  exact ⟨by omega, h.1, h.2.1⟩

/-- C6 counterexample: the fill phase does not treat the non-positive native
code 0 as failure — `encode_into_buffer` succeeds with 0 bytes written
instead of returning `EncodeFailed(0)` (the fill-phase test is `< 0`, not
`<= 0`). -/
theorem fill_phase_accepts_zero_code :
    (GGWave.encode_into_buffer envC6 ⟨0⟩ [97] 1 50 (List.replicate 5 0)).1.1
        = Except.ok 0
    ∧ ∀ code,
        (GGWave.encode_into_buffer envC6 ⟨0⟩ [97] 1 50 (List.replicate 5 0)).1.1
          ≠ Except.error (Error.EncodeFailed code) := by
  refine ⟨rfl, ?_⟩
  intro code h
  rw [show (GGWave.encode_into_buffer envC6 ⟨0⟩ [97] 1 50
      (List.replicate 5 0)).1.1 = Except.ok 0 from rfl] at h
  exact Except.noConfusion h

/-- C6 amended: the size-query phase treats a non-positive native code as
failure and the fill phase treats a strictly negative code as failure, in
both cases surfacing exactly the native code in `EncodeFailed`; a positive
query code and a non-negative fill code are returned as the size and the
bytes-written value respectively. -/
theorem native_code_preserved_on_failure (env : NativeEnv) (s : GGWave)
    (text : List Nat) (pid vol : Int) (buffer : List Nat) :
    (¬ text.length > GGWave.encodeMaxLength env s →
      env.encodeQueryRet s.inst text pid vol ≤ 0 →
      (GGWave.calculate_encode_buffer_size env s text pid vol).1
        = Except.error (Error.EncodeFailed
            (env.encodeQueryRet s.inst text pid vol)))
    ∧ (¬ text.length > GGWave.encodeMaxLength env s →
      0 < env.encodeQueryRet s.inst text pid vol →
      (GGWave.calculate_encode_buffer_size env s text pid vol).1
        = Except.ok (env.encodeQueryRet s.inst text pid vol).toNat)
    ∧ (∀ size tr0,
      GGWave.calculate_encode_buffer_size env s text pid vol
        = (Except.ok size, tr0) →
      ¬ buffer.length < size →
      ((env.encodeFillRet s.inst text pid vol < 0 →
        (GGWave.encode_into_buffer env s text pid vol buffer).1.1
          = Except.error (Error.EncodeFailed
              (env.encodeFillRet s.inst text pid vol)))
      ∧ (0 ≤ env.encodeFillRet s.inst text pid vol →
        (GGWave.encode_into_buffer env s text pid vol buffer).1.1
          = Except.ok (env.encodeFillRet s.inst text pid vol).toNat))) := by
  refine ⟨?_, ?_, ?_⟩
  · intro htext hneg
    unfold GGWave.calculate_encode_buffer_size
    dsimp only
    rw [if_neg htext, if_pos hneg]
  · intro htext hpos
    rw [calculate_ok_eq env s text pid vol htext hpos]
  · intro size tr0 hcalc hge
    have heib := encode_into_buffer_fill_eq env s text pid vol buffer size
      tr0 hcalc hge
    rw [heib]
    constructor
    · intro hneg
      rw [if_pos hneg]
    · intro hpos
      rw [if_neg (by omega)]

/-- Witness for the amended C6: a query answering the non-positive code -7
produces `EncodeFailed(-7)`. -/
theorem native_code_preserved_on_failure_witness :
    (¬ ([97] : List Nat).length > GGWave.encodeMaxLength
        { defaultTestEnv with encodeQueryRet := fun _ _ _ _ => -7 } ⟨0⟩)
    ∧ ({ defaultTestEnv with
          encodeQueryRet := fun _ _ _ _ => -7 } : NativeEnv).encodeQueryRet
        0 [97] 1 50 ≤ 0
    ∧ (GGWave.calculate_encode_buffer_size
        { defaultTestEnv with encodeQueryRet := fun _ _ _ _ => -7 } ⟨0⟩
        [97] 1 50).1 = Except.error (Error.EncodeFailed (-7)) := by
  have h := (native_code_preserved_on_failure
    { defaultTestEnv with encodeQueryRet := fun _ _ _ _ => -7 } ⟨0⟩
    [97] 1 50 []).1 (by decide) (by decide)
  exact ⟨by decide, by decide, h⟩

/-- The size-query trace contains no teardown call. -/
lemma countFree_calculate (env : NativeEnv) (s : GGWave) (text : List Nat)
    (pid vol : Int) :
    countFree (GGWave.calculate_encode_buffer_size env s text pid vol).2 = 0 := by
  unfold GGWave.calculate_encode_buffer_size
  dsimp only
  split_ifs <;>
    simp [countFree, countFree_append, NativeCall.isFree]

/-- The `encode_into_buffer` trace contains no teardown call. -/
lemma countFree_encode_into_buffer (env : NativeEnv) (s : GGWave)
    (text : List Nat) (pid vol : Int) (buffer : List Nat) :
    countFree (GGWave.encode_into_buffer env s text pid vol buffer).2 = 0 := by
  rcases hpair : GGWave.calculate_encode_buffer_size env s text pid vol
    with ⟨res, tr0⟩
  have htr : countFree tr0 = 0 := by
    have h := countFree_calculate env s text pid vol
    rw [hpair] at h
    exact h
  unfold GGWave.encode_into_buffer
  rw [hpair]
  cases res with
  | error e => exact htr
  | ok size =>
    dsimp only
    split_ifs <;>
      simp [countFree, countFree_append, NativeCall.isFree, htr]

/-- The `encode` trace contains no teardown call. -/
lemma countFree_encode (env : NativeEnv) (s : GGWave) (text : List Nat)
    (pid vol : Int) :
    countFree (GGWave.encode env s text pid vol).2 = 0 := by
  rcases hpair : GGWave.calculate_encode_buffer_size env s text pid vol
    with ⟨res, tr0⟩
  have htr0 : countFree tr0 = 0 := by
    have h := countFree_calculate env s text pid vol
    rw [hpair] at h
    exact h
  unfold GGWave.encode
  rw [hpair]
  cases res with
  | error e => exact htr0
  | ok size =>
    dsimp only
    rcases heib : GGWave.encode_into_buffer env s text pid vol
        (List.replicate size 0) with ⟨⟨r2, buf2⟩, tr2⟩
    have htr2 : countFree tr2 = 0 := by
      have h := countFree_encode_into_buffer env s text pid vol
        (List.replicate size 0)
      rw [heib] at h
      exact h
    cases r2 <;> dsimp only <;>
      simp [countFree_append, htr0, htr2]

/-- The bounded-decode trace contains no teardown call. -/
lemma countFree_decode (env : NativeEnv) (s : GGWave)
    (waveform buffer : List Nat) :
    countFree (GGWave.decode env s waveform buffer).2 = 0 := by
  unfold GGWave.decode
  dsimp only
  split_ifs <;>
    simp [countFree, NativeCall.isFree]

/-- The chunk-decode trace contains no teardown call. -/
lemma countFree_process_audio_chunk (env : NativeEnv) (s : GGWave)
    (audio_chunk decode_buffer : List Nat) :
    countFree (GGWave.process_audio_chunk env s audio_chunk decode_buffer).2
      = 0 := by
  unfold GGWave.process_audio_chunk
  dsimp only
  split_ifs <;>
    simp [countFree, NativeCall.isFree]

/-- No Session operation's trace contains a teardown call. -/
lemma countFree_opTrace (env : NativeEnv) (s : GGWave) (op : SessionOp) :
    countFree (GGWave.opTrace env s op) = 0 := by
  cases op with
  | calcSize t p v => exact countFree_calculate env s t p v
  | encodeInto t p v b => exact countFree_encode_into_buffer env s t p v b
  | encodeOp t p v => exact countFree_encode env s t p v
  | decodeOp w b => exact countFree_decode env s w b
  | processChunk c b => exact countFree_process_audio_chunk env s c b

/-- The concatenated traces of a list of operations contain no teardown. -/
lemma countFree_flatMap_opTrace (env : NativeEnv) (s : GGWave)
    (ops : List SessionOp) :
    countFree (ops.flatMap (GGWave.opTrace env s)) = 0 := by
  induction ops with
  | nil => rfl
  | cons op ops ih =>
    have h := countFree_opTrace env s op
    simp [List.flatMap_cons, countFree_append, h, ih]

/-- C9: over a full Session lifetime the teardown call `ggwave_free` occurs
exactly once when initialization succeeded — contributed solely by the
destructor — and never when initialization failed; no operation on a live
Session contributes a teardown call. -/
theorem session_teardown_exactly_once (env : NativeEnv) (params : Parameters)
    (ops : List SessionOp) :
    (¬ env.initRet params < 0 →
      countFree (sessionLifetimeTrace env params ops) = 1)
    ∧ (env.initRet params < 0 →
      countFree (sessionLifetimeTrace env params ops) = 0)
    ∧ ∀ (s : GGWave) (op : SessionOp),
        countFree (GGWave.opTrace env s op) = 0 := by
  refine ⟨?_, ?_, fun s op => countFree_opTrace env s op⟩
  · intro h
    unfold sessionLifetimeTrace GGWave.new_with_params
    dsimp only
    rw [if_neg h]
    dsimp only
    have h2 := countFree_flatMap_opTrace env ⟨env.initRet params⟩ ops
    simp [countFree, countFree_append, NativeCall.isFree, GGWave.drop, h2]
  · intro h
    unfold sessionLifetimeTrace GGWave.new_with_params
    dsimp only
    rw [if_pos h]
    rfl

/-- Witness for C9: with the test oracle (successful init) and one chunk
operation, the lifetime trace contains exactly one teardown call. -/
theorem session_teardown_exactly_once_witness :
    (¬ defaultTestEnv.initRet ⟨-1, 3⟩ < 0)
    ∧ countFree (sessionLifetimeTrace defaultTestEnv ⟨-1, 3⟩
        [SessionOp.processChunk [1] (List.replicate 4 0)]) = 1 :=
  ⟨by decide,
   (session_teardown_exactly_once defaultTestEnv ⟨-1, 3⟩
      [SessionOp.processChunk [1] (List.replicate 4 0)]).1 (by decide)⟩

/-- C8: complete step characterization of the background stream-processing
loop.  A read error or a zero-byte read ends the loop at once (one read
consumed, nothing further published, the channel closing with the loop); when
the send budget is exhausted (all receivers dropped) the very next decoded
message's failed push ends the loop with no further reads — within one
read-cycle; in every other situation the loop consumes exactly one read and
continues, so it terminates exactly under the three stated conditions (or
when the modelled finite source is exhausted). -/
theorem background_loop_termination (env : NativeEnv) (a : AsyncGGWave)
    (mp accepts k : Nat) (e : Unit) (chunk d : List Nat) (err : Error)
    (rest : List (Except Unit (List Nat))) :
    (background_loop env a mp accepts (Except.error e :: rest)
        = ([], StopReason.readError, 1))
    ∧ (background_loop env a mp accepts (Except.ok [] :: rest)
        = ([], StopReason.endOfStream, 1))
    ∧ (chunk ≠ [] →
        (AsyncGGWave.process_audio_chunk env a chunk mp).1
            = Except.ok (some d) →
        background_loop env a mp 0 (Except.ok chunk :: rest)
          = ([], StopReason.receiverDropped, 1))
    ∧ (chunk ≠ [] →
        (AsyncGGWave.process_audio_chunk env a chunk mp).1
            = Except.ok (some d) →
        background_loop env a mp (k + 1) (Except.ok chunk :: rest)
          = (d :: (background_loop env a mp k rest).1,
             (background_loop env a mp k rest).2.1,
             (background_loop env a mp k rest).2.2 + 1))
    ∧ (chunk ≠ [] →
        ((AsyncGGWave.process_audio_chunk env a chunk mp).1 = Except.ok none
          ∨ (AsyncGGWave.process_audio_chunk env a chunk mp).1
              = Except.error err) →
        background_loop env a mp accepts (Except.ok chunk :: rest)
          = ((background_loop env a mp accepts rest).1,
             (background_loop env a mp accepts rest).2.1,
             (background_loop env a mp accepts rest).2.2 + 1)) := by
  refine ⟨rfl, rfl, ?_, ?_, ?_⟩
  · intro h1 h2
    have hlen : ¬ chunk.length = 0 := fun hc => h1 (List.length_eq_zero.mp hc)
    simp only [background_loop]
    rw [if_neg hlen, h2]
  · intro h1 h2
    have hlen : ¬ chunk.length = 0 := fun hc => h1 (List.length_eq_zero.mp hc)
    simp only [background_loop]
    rw [if_neg hlen, h2]
  · intro h1 h2
    have hlen : ¬ chunk.length = 0 := fun hc => h1 (List.length_eq_zero.mp hc)
    rcases h2 with h2 | h2 <;>
      · simp only [background_loop]
        rw [if_neg hlen, h2]

/-- Witness for C8: with the send budget exhausted, the loop exits with
`receiverDropped` after the single read whose decoded message could not be
pushed. -/
theorem background_loop_termination_witness :
    ([1] : List Nat) ≠ []
    ∧ (AsyncGGWave.process_audio_chunk envC8 ⟨⟨0⟩⟩ [1] 8).1
        = Except.ok (some [104, 105])
    ∧ background_loop envC8 ⟨⟨0⟩⟩ 8 0 [Except.ok [1]]
        = ([], StopReason.receiverDropped, 1) :=
  ⟨by decide, rfl,
   (background_loop_termination envC8 ⟨⟨0⟩⟩ 8 0 0 () [1] [104, 105]
      Error.InitializationFailed []).2.2.1 (by decide) rfl⟩

end GgwaveRs
